import Mathlib

/-!
Shallow embedding of the AI Productivity Tracker core (scoring engine,
persistence facade, day-record aggregator) and verification of its
specified properties.

Sources embedded:
- `src/unnamed/part_000` (app logic): `SCORING`, `COLOR_MAPPING`,
  `calculateProductivityScore`, `getColorForScore`, `validateAllPhases`,
  `savePhaseData`, `getTodayData`, `calculateScoreFromPhaseObjects`,
  `updateHeatmapColor`, `handleGenerateClick`.
- `src/unnamed/part_001` (firebase-config): `saveDailyData`, `fetchAllData`,
  `saveToLocalStorage`, `fetchFromLocalStorage`.

Modelling conventions:
- JS strings are Lean `String`; JS truthiness of a string is `s ≠ ""`.
- JS objects keyed by `"phase1"`.."`phase5`" (resp. by date) are association
  lists with JavaScript object-update semantics (`jsUpsert`): an existing key
  is overwritten in place, a new key is appended; `Object.values` is `map (·.2)`.
- The Firestore document collection and the localStorage blob are both
  date-keyed maps inside a `Store`; `setDoc` and `existingData[date] = entry`
  are full-record overwrites, exactly as in the source.
- Whether the remote backend is initialized (`db` truthy) or a remote call
  throws is an explicit `RemoteOutcome` parameter per call; a localStorage
  failure (e.g. quota) is a `LocalOutcome` parameter. The source's try/catch
  recovery paths are embedded as matches on these outcomes.
- Timestamps (`new Date().toISOString()`) are threaded as an explicit `now`
  string; no claim depends on their value.
-/

/-- Transient input from one row of dropdowns (`collectPhaseData`,
part_000:151-166): phase index 1..5, status string, productivity string
(empty string when nothing is selected). -/
structure PhaseSelection where
  phase : Nat
  status : String
  productivity : String
deriving DecidableEq, Repr

/-- Persisted per-phase record as built in `savePhaseData` (part_000:401-406). -/
structure PhaseRecord where
  status : String
  productivity : String
  timestamp : String
  locked : Bool
deriving DecidableEq, Repr

/-- The `phases` object of a DayRecord: keys `phase1`..`phase5` modelled by
their numeric index, with JS object insertion-order semantics. -/
abbrev Phases := List (Nat × PhaseRecord)

/-- JavaScript object update `obj[k] = v`: overwrite in place if the key is
present, append otherwise. -/
def jsUpsert {κ α : Type} [DecidableEq κ] (l : List (κ × α)) (k : κ) (v : α) :
    List (κ × α) :=
  if l.any (fun kv => kv.1 = k) then
    l.map (fun kv => if kv.1 = k then (k, v) else kv)
  else
    l ++ [(k, v)]

/-- The persisted day record (`dataToSave` in `savePhaseData`, the Firestore
document in `saveDailyData`, the localStorage `dataEntry`). `phases` is
`none` when the record was written without a phases argument (`if (phases)`
guards adding the key in both backends). -/
structure DayRecord where
  date : String
  weekday : String
  score : Nat
  color : String
  timestamp : String
  phases : Option Phases
deriving DecidableEq, Repr

/-- `SCORING.status` lookup with the `|| 0` default (part_000:14-20,187). -/
def statusScore (status : String) : Nat :=
  if status = "passed" then 10
  else if status = "failed" then 0
  else if status = "other-important-work" then 10
  else if status = "intentionally-declined" then 10
  else 0

/-- `SCORING.productivity` lookup with the `|| 0` default (part_000:21-27,196). -/
def productivityScore (productivity : String) : Nat :=
  if productivity = "highly-productive" then 10
  else if productivity = "productive" then 8
  else if productivity = "average" then 6
  else if productivity = "below-average" then 4
  else if productivity = "least-productive" then 2
  else 0

/-- Loop body of `calculateProductivityScore` (part_000:185-200): a phase with
falsy (empty) status is skipped; status `failed` contributes 0; otherwise
status points plus (if a productivity is selected) productivity points. -/
def contribSel (p : PhaseSelection) : Nat :=
  if p.status ≠ "" then
    if p.status = "failed" then 0
    else
      statusScore p.status +
        (if p.productivity ≠ "" then productivityScore p.productivity else 0)
  else 0

/-- The accumulated `totalScore` of `calculateProductivityScore` before the
final clamp. -/
def totalSel (phaseData : List PhaseSelection) : Nat :=
  (phaseData.map contribSel).sum

/-- `calculateProductivityScore` (part_000:182-206): accumulate the per-phase
contributions, then `Math.min(100, Math.max(0, totalScore))`. -/
def calculateProductivityScore (phaseData : List PhaseSelection) : Nat :=
  min 100 (max 0 (totalSel phaseData))

/-- Loop body of `calculateScoreFromPhaseObjects` (part_000:462-473): same as
`contribSel` except the productivity lookup is unguarded (the `|| 0` default
makes an empty productivity contribute 0 anyway). -/
def contribRec (p : PhaseRecord) : Nat :=
  if p.status ≠ "" then
    if p.status = "failed" then 0
    else statusScore p.status + productivityScore p.productivity
  else 0

/-- The accumulated `totalScore` of `calculateScoreFromPhaseObjects` before
the final clamp. -/
def totalRec (phases : List PhaseRecord) : Nat :=
  (phases.map contribRec).sum

/-- `calculateScoreFromPhaseObjects` (part_000:459-476). -/
def calculateScoreFromPhaseObjects (phases : List PhaseRecord) : Nat :=
  min 100 (max 0 (totalRec phases))

/-- `COLOR_MAPPING` (part_000:31-37), as the lookup used by
`getColorForScore` (keys 80, 60, 40, 20, 0). -/
def COLOR_MAPPING (key : Nat) : String :=
  if key = 80 then "#0c6111ff"
  else if key = 60 then "#349e39ff"
  else if key = 40 then "#3cd841ff"
  else if key = 20 then "#65cd68ff"
  else "#E8F5E8"

/-- `getColorForScore` (part_000:213-220). -/
def getColorForScore (score : Nat) : String :=
  if score = 0 then "#f0f0f0"
  else if 81 ≤ score then COLOR_MAPPING 80
  else if 61 ≤ score then COLOR_MAPPING 60
  else if 41 ≤ score then COLOR_MAPPING 40
  else if 21 ≤ score then COLOR_MAPPING 20
  else COLOR_MAPPING 0

/-- `validateAllPhases` (part_000:173-175): at least one submitted phase has a
truthy (non-empty) status. -/
def validateAllPhases (phaseData : List PhaseSelection) : Bool :=
  phaseData.any (fun phase => phase.status != "")

/-- Outcome of a single remote-backend call: `unavailable` is a falsy `db`
(Firebase initialization failed at startup, part_001:32-40), `ok` is a
successful Firestore call, `err` is a thrown Firestore error caught by the
enclosing try/catch. -/
inductive RemoteOutcome where
  | unavailable
  | ok
  | err
deriving DecidableEq, Repr

/-- Outcome of a localStorage access: `ok`, or `err` for a thrown exception
(e.g. quota exceeded) caught by the enclosing try/catch. -/
inductive LocalOutcome where
  | ok
  | err
deriving DecidableEq, Repr

/-- Durable state: the Firestore collection `users/defaultUser/consistency`
(documents keyed by date) and the localStorage blob under key
`productivityData` (a date-keyed map). -/
structure Store where
  remote : List (String × DayRecord)
  localData : List (String × DayRecord)
deriving DecidableEq, Repr

/-- `saveToLocalStorage` (part_001:136-163): read the blob, build `dataEntry`
(with a `phases` key only if a phases argument was provided), overwrite the
date's slot, write the blob back; `true` on success, `false` if an exception
was thrown (caught in the function itself). -/
def saveToLocalStorage (lo : LocalOutcome) (st : Store) (date weekday : String)
    (score : Nat) (color : String) (phases : Option Phases) (now : String) :
    Bool × Store :=
  match lo with
  | .err => (false, st)
  | .ok =>
      (true,
       { st with
         localData := jsUpsert st.localData date
           { date := date, weekday := weekday, score := score, color := color,
             timestamp := now, phases := phases } })

/-- `saveDailyData` (part_001:51-86): with no `db`, delegate to
`saveToLocalStorage` passing the phases through (line 55); with `db`, `setDoc`
a fresh document (phases included only when provided) and return `true`; when
`setDoc` throws, fall back to `saveToLocalStorage(date, weekday, score, color)`
— the source's catch branch (line 84) does not pass the phases argument, so
the fallback entry is written without a `phases` key. -/
def saveDailyData (ro : RemoteOutcome) (lo : LocalOutcome) (st : Store)
    (date weekday : String) (score : Nat) (color : String)
    (phases : Option Phases) (now : String) : Bool × Store :=
  match ro with
  | .unavailable => saveToLocalStorage lo st date weekday score color phases now
  | .ok =>
      (true,
       { st with
         remote := jsUpsert st.remote date
           { date := date, weekday := weekday, score := score, color := color,
             timestamp := now, phases := phases } })
  | .err => saveToLocalStorage lo st date weekday score color none now

/-- `fetchFromLocalStorage` (part_001:169-184): `Object.values` of the blob.
The source then sorts by date descending; the sort is omitted here because
dates are unique keys and no verified property depends on the ordering, only
on per-date lookup. -/
def fetchFromLocalStorage (st : Store) : List DayRecord :=
  st.localData.map (fun kv => kv.2)

/-- `fetchAllData` (part_001:92-125): with no `db`, read localStorage; with
`db`, return the collection's documents; when the query throws, fall back to
localStorage. -/
def fetchAllData (ro : RemoteOutcome) (st : Store) : List DayRecord :=
  match ro with
  | .unavailable => fetchFromLocalStorage st
  | .ok => st.remote.map (fun kv => kv.2)
  | .err => fetchFromLocalStorage st

/-- `getTodayData` (part_000:438-452): fetch all records and find the one for
the given date. The source returns a default object
`{ phases: {}, score: 0, color: "#f0f0f0" }` when none exists; we return
`none` and the single caller that uses the result (`savePhaseData`) takes the
default's phases, i.e. the empty map, in that case. -/
def getTodayData (ro : RemoteOutcome) (st : Store) (date : String) :
    Option DayRecord :=
  (fetchAllData ro st).find? (fun item => item.date == date)

/-- `savePhaseData` (part_000:391-431): fetch today's record, merge every
submitted phase with a truthy status into its phases map as a locked
`PhaseRecord` (spreading `existingData.phases`, which is the empty map when
the record is absent or has no `phases` key), recompute the total score over
`Object.values` of the merged map and its color, and save through
`saveDailyData` with the merged phases. -/
def savePhaseData (roFetch roSave : RemoteOutcome) (lo : LocalOutcome)
    (st : Store) (date weekday : String) (phaseData : List PhaseSelection)
    (now : String) : Bool × Store :=
  let existingPhases : Phases :=
    match getTodayData roFetch st date with
    | some d => d.phases.getD []
    | none => []
  let updatedPhases : Phases :=
    phaseData.foldl
      (fun acc phase =>
        if phase.status ≠ "" then
          jsUpsert acc phase.phase
            { status := phase.status,
              productivity :=
                if phase.productivity ≠ "" then phase.productivity else "",
              timestamp := now,
              locked := true }
        else acc)
      existingPhases
  let allPhases : List PhaseRecord := updatedPhases.map (fun kv => kv.2)
  let totalScore := calculateScoreFromPhaseObjects allPhases
  let color := getColorForScore totalScore
  saveDailyData roSave lo st date weekday totalScore color (some updatedPhases) now

/-- `updateHeatmapColor` (part_000:533-539): a facade write with no phases
argument; its boolean result and any thrown error are discarded. -/
def updateHeatmapColor (ro : RemoteOutcome) (lo : LocalOutcome) (st : Store)
    (date weekday : String) (score : Nat) (color : String) (now : String) :
    Store :=
  (saveDailyData ro lo st date weekday score color none now).2

/-- One invocation of a Persistence Facade operation, recorded in the order
the `handleGenerateClick` flow performs them. -/
inductive FacadeOp where
  | fetchAll
  | save
deriving DecidableEq, Repr

/-- The storage-relevant part of `handleGenerateClick` (part_000:95-145): if
validation fails, reject before any fetch or write; otherwise run
`savePhaseData` (one fetch + one save), and on success `lockSavedPhases` (one
fetch), `updateHeatmapColor` with the score of the *newly submitted*
selections only (one save), and `loadHeatmapData` (one fetch). DOM-only
effects (messages, locking controls) are omitted. The second component is the
trace of facade operations invoked. -/
def handleGenerateClick (roFetch roSave roPost : RemoteOutcome)
    (loSave loPost : LocalOutcome) (st : Store) (date weekday : String)
    (phaseData : List PhaseSelection) (now : String) :
    Store × List FacadeOp :=
  if validateAllPhases phaseData then
    let res := savePhaseData roFetch roSave loSave st date weekday phaseData now
    let score := calculateProductivityScore phaseData
    let color := getColorForScore score
    if res.1 then
      (updateHeatmapColor roPost loPost res.2 date weekday score color now,
       [.fetchAll, .save, .fetchAll, .save, .fetchAll])
    else
      (res.2, [.fetchAll, .save])
  else
    (st, [])

/-- The §4.1/§3 DayRecord invariant, stated from the spec: the stored score is
the scoring function of the stored phases map (absent phases read as the empty
map, as `getTodayData`'s default does), and the stored color is the color
function of the stored score. -/
def scoreColorInvariant (r : DayRecord) : Prop :=
  r.score = calculateScoreFromPhaseObjects ((r.phases.getD []).map (fun kv => kv.2)) ∧
  r.color = getColorForScore r.score

/-- Empty starting store: no Firestore documents, empty localStorage blob. -/
def emptyStore : Store := { remote := [], localData := [] }

/-- Submission of phase 1 as passed / highly-productive, the other four rows
left blank, as `collectPhaseData` delivers them. -/
def sel1 : List PhaseSelection :=
  [⟨1, "passed", "highly-productive"⟩, ⟨2, "", ""⟩, ⟨3, "", ""⟩,
   ⟨4, "", ""⟩, ⟨5, "", ""⟩]

/-- Submission of phase 2 as passed / average, the other four rows blank. -/
def sel2 : List PhaseSelection :=
  [⟨1, "", ""⟩, ⟨2, "passed", "average"⟩, ⟨3, "", ""⟩, ⟨4, "", ""⟩,
   ⟨5, "", ""⟩]

/-- The record `handleGenerateClick` leaves in the store after a single
phase-1 submission on an empty store with a working backend: score 20 but no
phases map, because the post-save `updateHeatmapColor` write overwrites the
full record without a phases argument. -/
def c1rec : DayRecord :=
  ⟨"2025-01-15", "Wednesday", 20, "#E8F5E8", "T1", none⟩

/-- The record left after the phase-1 flow followed by the phase-2 flow on the
same date: score 16 and no phases map. -/
def c3rec : DayRecord :=
  ⟨"2025-01-15", "Wednesday", 16, "#E8F5E8", "T2", none⟩

/-- The phases map submitted in the C2 round-trip scenario. -/
def c2phases : Phases := [(1, ⟨"passed", "highly-productive", "T1", true⟩)]

/-- Every status-table value is at most 10. -/
theorem statusScore_le_ten (s : String) : statusScore s ≤ 10 := by
  unfold statusScore
  split_ifs <;> omega

/-- Every productivity-table value is at most 10. -/
theorem productivityScore_le_ten (p : String) : productivityScore p ≤ 10 := by
  unfold productivityScore
  split_ifs <;> omega

/-- A phase selection contributes at most 20 points. -/
theorem contribSel_le_twenty (p : PhaseSelection) : contribSel p ≤ 20 := by
  have h1 := statusScore_le_ten p.status
  have h2 := productivityScore_le_ten p.productivity
  unfold contribSel
  split_ifs <;> omega

/-- A stored phase record contributes at most 20 points. -/
theorem contribRec_le_twenty (p : PhaseRecord) : contribRec p ≤ 20 := by
  have h1 := statusScore_le_ten p.status
  have h2 := productivityScore_le_ten p.productivity
  unfold contribRec
  split_ifs <;> omega

/-- The unclamped selection total is bounded by 20 per phase. -/
theorem totalSel_le (l : List PhaseSelection) : totalSel l ≤ 20 * l.length := by
  induction l with
  | nil => simp [totalSel]
  | cons a t ih =>
      have ha := contribSel_le_twenty a
      have hc : totalSel (a :: t) = contribSel a + totalSel t := by
        simp [totalSel]
      rw [hc]
      simp only [List.length_cons]
      omega

/-- The unclamped record total is bounded by 20 per phase. -/
theorem totalRec_le (l : List PhaseRecord) : totalRec l ≤ 20 * l.length := by
  induction l with
  | nil => simp [totalRec]
  | cons a t ih =>
      have ha := contribRec_le_twenty a
      have hc : totalRec (a :: t) = contribRec a + totalRec t := by
        simp [totalRec]
      rw [hc]
      simp only [List.length_cons]
      omega

/-- C8: for at most 5 phase inputs of either shape (arbitrary status and
productivity strings), the unclamped sum of per-phase contributions already
lies in [0, 100], the defensive clamp never changes the result, and the
computed total score lies in [0, 100]. -/
theorem score_bounds (sel : List PhaseSelection) (recs : List PhaseRecord)
    (hsel : sel.length ≤ 5) (hrecs : recs.length ≤ 5) :
    totalSel sel ≤ 100 ∧
    calculateProductivityScore sel = totalSel sel ∧
    calculateProductivityScore sel ≤ 100 ∧
    totalRec recs ≤ 100 ∧
    calculateScoreFromPhaseObjects recs = totalRec recs ∧
    calculateScoreFromPhaseObjects recs ≤ 100 := by
  have h1 := totalSel_le sel
  have h2 := totalRec_le recs
  have hs : totalSel sel ≤ 100 := by omega
  have hr : totalRec recs ≤ 100 := by omega
  have es : calculateProductivityScore sel = totalSel sel := by
    unfold calculateProductivityScore
    rw [Nat.zero_max, min_eq_right hs]
  have er : calculateScoreFromPhaseObjects recs = totalRec recs := by
    unfold calculateScoreFromPhaseObjects
    rw [Nat.zero_max, min_eq_right hr]
  exact ⟨hs, es, by omega, hr, er, by omega⟩

/-- Witness for `score_bounds` at a concrete full submission. -/
theorem score_bounds_witness :
    totalSel sel1 ≤ 100 ∧
    calculateProductivityScore sel1 = totalSel sel1 ∧
    calculateProductivityScore sel1 ≤ 100 ∧
    totalRec [⟨"passed", "highly-productive", "T1", true⟩] ≤ 100 ∧
    calculateScoreFromPhaseObjects [⟨"passed", "highly-productive", "T1", true⟩]
      = totalRec [⟨"passed", "highly-productive", "T1", true⟩] ∧
    calculateScoreFromPhaseObjects [⟨"passed", "highly-productive", "T1", true⟩] ≤ 100 :=
  score_bounds sel1 [⟨"passed", "highly-productive", "T1", true⟩]
    (by decide) (by decide)

/-- C9: the computed total score is invariant under any permutation of the
phase collection. -/
theorem score_perm_invariant (l1 l2 : List PhaseSelection) (h : l1.Perm l2) :
    calculateProductivityScore l1 = calculateProductivityScore l2 := by
  unfold calculateProductivityScore totalSel
  rw [List.Perm.sum_eq (h.map contribSel)]

/-- Witness for `score_perm_invariant` on a concrete two-element swap. -/
theorem score_perm_invariant_witness :
    calculateProductivityScore
        [⟨1, "passed", "average"⟩, ⟨2, "failed", ""⟩]
      = calculateProductivityScore
        [⟨2, "failed", ""⟩, ⟨1, "passed", "average"⟩] :=
  score_perm_invariant _ _ (List.Perm.swap _ _ _)

/-- C7: a phase with status `failed` contributes 0 regardless of any
productivity value, under both scoring functions, and removing such a phase
does not change the total score. -/
theorem failed_phase_contributes_zero (i : Nat) (prod ts : String) (lk : Bool)
    (sel : List PhaseSelection) (recs : List PhaseRecord) :
    contribSel ⟨i, "failed", prod⟩ = 0 ∧
    contribRec ⟨"failed", prod, ts, lk⟩ = 0 ∧
    calculateProductivityScore (⟨i, "failed", prod⟩ :: sel)
      = calculateProductivityScore sel ∧
    calculateScoreFromPhaseObjects (⟨"failed", prod, ts, lk⟩ :: recs)
      = calculateScoreFromPhaseObjects recs := by
  refine ⟨by simp [contribSel], by simp [contribRec], ?_, ?_⟩
  · simp [calculateProductivityScore, totalSel, contribSel]
  · simp [calculateScoreFromPhaseObjects, totalRec, contribRec]

set_option maxHeartbeats 1000000 in
/-- C10: the score-to-color mapping is a total function whose value on
[0, 100] is given by six buckets with the stated closed boundaries (0 the
neutral no-data color, 1-20, 21-40, 41-60, 61-80, 81-100), and the six bucket
colors are pairwise distinct (in particular the neutral color differs from
the 1-20 color, and scores 20 and 21 fall in different buckets). -/
theorem getColorForScore_buckets :
    getColorForScore 0 = "#f0f0f0" ∧
    (∀ s : Nat, 1 ≤ s → s ≤ 100 →
      getColorForScore s =
        if s ≤ 20 then "#E8F5E8"
        else if s ≤ 40 then "#65cd68ff"
        else if s ≤ 60 then "#3cd841ff"
        else if s ≤ 80 then "#349e39ff"
        else "#0c6111ff") ∧
    List.Pairwise (fun a b => a ≠ b)
      ["#f0f0f0", "#E8F5E8", "#65cd68ff", "#3cd841ff", "#349e39ff",
       "#0c6111ff"] := by
  refine ⟨by decide, ?_, by decide⟩
  intro s h1 h2
  unfold getColorForScore
  split_ifs <;> first | rfl | omega

/-- Witness for `getColorForScore_buckets`: the boundary scores 20 and 21. -/
theorem getColorForScore_buckets_witness :
    getColorForScore 20 = "#E8F5E8" ∧ getColorForScore 21 = "#65cd68ff" := by
  constructor
  · have h := getColorForScore_buckets.2.1 20 (by decide) (by decide)
    simpa using h
  · have h := getColorForScore_buckets.2.1 21 (by decide) (by decide)
    simpa using h

/-- Counterexample to C4 as stated: a phase whose status is non-empty but not
one of the four known values still has its productivity points added — score
10, not 0, for `{status: "skipped", productivity: "highly-productive"}`. -/
theorem unknown_status_scored_counterexample :
    calculateProductivityScore [⟨1, "skipped", "highly-productive"⟩] = 10 ∧
    calculateProductivityScore [⟨1, "skipped", "highly-productive"⟩] ≠ 0 ∧
    calculateScoreFromPhaseObjects
      [⟨"skipped", "highly-productive", "T1", true⟩] = 10 := by decide

/-- C4 amended: a phase with empty status is excluded from scoring entirely,
and a phase with an unknown non-empty status gets 0 status points; but for an
unknown non-empty status the productivity points are still added (only the
exact status `failed` suppresses them), so such a phase contributes exactly
its productivity value under both scoring functions. -/
theorem unknown_status_amended (i : Nat) (s prod ts : String) (lk : Bool)
    (hs : s ≠ "") (h1 : s ≠ "passed") (h2 : s ≠ "failed")
    (h3 : s ≠ "other-important-work") (h4 : s ≠ "intentionally-declined") :
    contribSel ⟨i, "", prod⟩ = 0 ∧
    statusScore s = 0 ∧
    contribSel ⟨i, s, prod⟩ = productivityScore prod ∧
    contribRec ⟨s, prod, ts, lk⟩ = productivityScore prod := by
  have hst : statusScore s = 0 := by
    unfold statusScore
    split_ifs <;> first | rfl | tauto
  refine ⟨by simp [contribSel], hst, ?_, ?_⟩
  · unfold contribSel
    by_cases hp : prod = ""
    · subst hp
      simp [hs, h2, hst, productivityScore]
    · simp [hs, h2, hst, hp]
  · unfold contribRec
    simp [hs, h2, hst]

/-- Witness for `unknown_status_amended` at the counterexample's input. -/
theorem unknown_status_amended_witness :
    contribSel ⟨1, "", "highly-productive"⟩ = 0 ∧
    statusScore "skipped" = 0 ∧
    contribSel ⟨1, "skipped", "highly-productive"⟩
      = productivityScore "highly-productive" ∧
    contribRec ⟨"skipped", "highly-productive", "T1", true⟩
      = productivityScore "highly-productive" :=
  unknown_status_amended 1 "skipped" "highly-productive" "T1" true
    (by decide) (by decide) (by decide) (by decide) (by decide)

/-- C5: `saveDailyData` is a total function into a boolean (the embedding has
no exception path — every throw in the source is caught inside the function):
it reports success exactly when the remote write succeeds or the (possibly
fallback) local write succeeds, and reports failure exactly when the remote
backend did not succeed and the local backend failed too. -/
theorem saveDailyData_total_boolean (ro : RemoteOutcome) (lo : LocalOutcome)
    (st : Store) (date weekday : String) (score : Nat) (color : String)
    (phases : Option Phases) (now : String) :
    ((saveDailyData ro lo st date weekday score color phases now).1 = true
      ↔ (ro = RemoteOutcome.ok ∨ lo = LocalOutcome.ok)) ∧
    ((saveDailyData ro lo st date weekday score color phases now).1 = false
      ↔ (ro ≠ RemoteOutcome.ok ∧ lo = LocalOutcome.err)) := by
  cases ro <;> cases lo <;> simp [saveDailyData, saveToLocalStorage]

/-- C6: a submission in which every phase has an empty status is rejected by
validation before any facade call: the operation trace is empty and the store
is unchanged, for every backend condition. -/
theorem all_empty_rejected (roFetch roSave roPost : RemoteOutcome)
    (loSave loPost : LocalOutcome) (st : Store) (date weekday now : String)
    (phaseData : List PhaseSelection)
    (h : ∀ p ∈ phaseData, p.status = "") :
    handleGenerateClick roFetch roSave roPost loSave loPost st date weekday
      phaseData now = (st, []) := by
  have hv : validateAllPhases phaseData = false := by
    unfold validateAllPhases
    rw [List.any_eq_false]
    intro p hp
    simp [h p hp]
  simp [handleGenerateClick, hv]

/-- Witness for `all_empty_rejected`: all five dropdown rows left blank. -/
theorem all_empty_rejected_witness :
    handleGenerateClick .ok .ok .ok .ok .ok emptyStore "2025-01-15" "Wednesday"
      [⟨1, "", ""⟩, ⟨2, "", ""⟩, ⟨3, "", ""⟩, ⟨4, "", ""⟩, ⟨5, "", ""⟩] "T1"
      = (emptyStore, []) :=
  all_empty_rejected _ _ _ _ _ _ _ _ _ _ (by decide)

/-- C1: after the full generate flow (aggregator merge-and-save followed by
its post-save facade write `updateHeatmapColor`) for a phase-1 submission on
an empty store with a working remote backend, the stored record is `c1rec`:
score 20 with no phases map — the score/color-of-phases invariant is violated,
because the post-save write overwrote the record without its phases (and the
merge-and-save itself had reported success). -/
theorem stored_record_violates_score_invariant :
    getTodayData .ok
        (handleGenerateClick .ok .ok .ok .ok .ok emptyStore "2025-01-15"
          "Wednesday" sel1 "T1").1 "2025-01-15"
      = some c1rec ∧
    ¬ scoreColorInvariant c1rec ∧
    (savePhaseData .ok .ok .ok emptyStore "2025-01-15" "Wednesday" sel1
        "T1").1 = true := by
  refine ⟨by decide, ?_, by decide⟩
  intro hinv
  unfold scoreColorInvariant at hinv
  exact absurd hinv.1 (by decide)

/-- The aggregator's merge-and-save alone does maintain the invariant on the
C1 input: the record it stores carries the merged phases map, and its score
and color are the scoring and color functions of that map. -/
theorem savePhaseData_alone_satisfies_invariant :
    getTodayData .ok
        ((savePhaseData .ok .ok .ok emptyStore "2025-01-15" "Wednesday" sel1
          "T1").2) "2025-01-15"
      = some ⟨"2025-01-15", "Wednesday", 20, "#E8F5E8", "T1",
          some [(1, ⟨"passed", "highly-productive", "T1", true⟩)]⟩ ∧
    scoreColorInvariant ⟨"2025-01-15", "Wednesday", 20, "#E8F5E8", "T1",
      some [(1, ⟨"passed", "highly-productive", "T1", true⟩)]⟩ := by
  constructor
  · decide
  · unfold scoreColorInvariant
    exact ⟨by decide, by decide⟩

/-- C2: when the remote write throws and the facade falls over to the local
backend, the write still reports success, but the record then retrieved for
that date has no phases map at all, although a phases map was supplied to the
write — the catch-branch fallback call drops the phases argument. -/
theorem write_fallback_drops_phases :
    (saveDailyData .err .ok emptyStore "2025-01-15" "Wednesday" 20 "#E8F5E8"
        (some c2phases) "T1").1 = true ∧
    getTodayData .err
        (saveDailyData .err .ok emptyStore "2025-01-15" "Wednesday" 20
          "#E8F5E8" (some c2phases) "T1").2 "2025-01-15"
      = some ⟨"2025-01-15", "Wednesday", 20, "#E8F5E8", "T1", none⟩ ∧
    (some c2phases ≠ (none : Option Phases)) := by
  refine ⟨by decide, by decide, by decide⟩

/-- The round-trip C2 describes does hold on the unconfigured-remote path: with
no `db`, `saveDailyData` passes the phases through to the local backend, and
the retrieved record carries identical score, color, and phases. -/
theorem write_unconfigured_roundtrip_ok :
    (saveDailyData .unavailable .ok emptyStore "2025-01-15" "Wednesday" 20
        "#E8F5E8" (some c2phases) "T1").1 = true ∧
    getTodayData .unavailable
        (saveDailyData .unavailable .ok emptyStore "2025-01-15" "Wednesday" 20
          "#E8F5E8" (some c2phases) "T1").2 "2025-01-15"
      = some ⟨"2025-01-15", "Wednesday", 20, "#E8F5E8", "T1",
          some c2phases⟩ := by
  refine ⟨by decide, by decide⟩

/-- C3: submitting phase 1 as passed/highly-productive and then, in a second
complete generate flow on the same date, phase 2 as passed/average leaves the
stored record `c3rec` with score 16 and no phases map — not score 36 with both
entries — because each flow's post-save facade write erased the phases, so the
second merge found nothing to accumulate onto. -/
theorem same_day_accumulation_lost :
    getTodayData .ok
        ((handleGenerateClick .ok .ok .ok .ok .ok
            (handleGenerateClick .ok .ok .ok .ok .ok emptyStore "2025-01-15"
              "Wednesday" sel1 "T1").1
            "2025-01-15" "Wednesday" sel2 "T2").1) "2025-01-15"
      = some c3rec ∧
    c3rec.score = 16 ∧
    c3rec.score ≠ 36 ∧
    (c3rec.phases.getD []).lookup 1 = none ∧
    (c3rec.phases.getD []).lookup 2 = none := by
  refine ⟨by decide, by decide, by decide, by decide, by decide⟩

/-- The aggregator alone accumulates exactly as C3 describes: two sequential
`savePhaseData` calls (no post-save facade write in between) merge both
entries and store score 36 = 20 + 16 with the matching color. -/
theorem savePhaseData_alone_accumulates :
    getTodayData .ok
        ((savePhaseData .ok .ok .ok
            ((savePhaseData .ok .ok .ok emptyStore "2025-01-15" "Wednesday"
              sel1 "T1").2)
            "2025-01-15" "Wednesday" sel2 "T2").2) "2025-01-15"
      = some ⟨"2025-01-15", "Wednesday", 36, "#65cd68ff", "T2",
          some [(1, ⟨"passed", "highly-productive", "T1", true⟩),
                (2, ⟨"passed", "average", "T2", true⟩)]⟩ := by
  decide
